import Mathlib

/-!
Verification of the auto-registration provider registry
(`payment.py`, `payment_example.py`, `main.py`).

The repository implements a provider registry and factory twice:

* `payment_example.py` — class `ProviderRegistry` with methods `register`
  (rejects duplicate names with `ValueError`), `create` (merges the stored
  default configuration with caller kwargs, kwargs winning key-by-key, and
  instantiates the provider dataclass), `get_default_config` (returns a
  `.copy()` of the stored defaults) and `list_providers`; the subclass hook
  `PaymentProvider.__init_subclass__` delegates to `register`.
* `payment.py` — class `PaymentProvider` holding `_registry`; its
  `__init_subclass__` writes `cls._registry[name] = ProviderInput(cls, cfg)`
  directly (silently overwriting duplicates), `from_name` indexes the dict
  (raising `KeyError` on a missing name) and merges defaults with kwargs.

Python dicts are modelled as insertion-ordered association lists with
first-occurrence lookup and in-place update (`aset` keeps an existing
key's position, as CPython dict assignment does).  Dataclass instantiation
`cls(**cfg)` is modelled by `applyCtor`: CPython raises `TypeError` for an
unexpected keyword argument (checked first) or a missing required field.
Aliasing facts (copy-on-read of defaults, freshness of per-instance
configuration) are modelled with an explicit store of dictionaries indexed
by natural-number references.
-/

/-- Values stored in configuration dictionaries.  The source only ever
stores strings and (in spec examples) numbers; the registry is agnostic. -/
inductive ConfigValue
  | str (s : String)
  | num (n : Int)
deriving DecidableEq, Repr

/-- Association-list lookup: first occurrence wins, like a Python dict
(whose keys are unique anyway). -/
def aget {α : Type} : List (String × α) → String → Option α
  | [], _ => none
  | (k, v) :: rest, key => if k = key then some v else aget rest key

/-- Association-list update, mirroring CPython `d[k] = v`: an existing key
keeps its position and gets the new value, a new key is appended. -/
def aset {α : Type} : List (String × α) → String → α → List (String × α)
  | [], k, v => [(k, v)]
  | (k0, v0) :: rest, k, v =>
    if k0 = k then (k, v) :: rest else (k0, v0) :: aset rest k v

/-- The keys of an association list, in insertion order (`dict.keys()`). -/
def akeys {α : Type} (d : List (String × α)) : List String :=
  d.map (fun e => e.1)

/-- A Python configuration dictionary: string keys to values. -/
abbrev Dict := List (String × ConfigValue)

/-- Python dict merge `\x7b**a, **b\x7d`: start from `a`, then insert every
pair of `b` in order, so keys of `b` win key-by-key. -/
def dictMerge (a b : Dict) : Dict :=
  b.foldl (fun acc kv => aset acc kv.1 kv.2) a

/-- The provider classes defined across the two modules:
`StripeProvider`/`PayPalProvider` (`payment_example.py`) and
`ApplePayProvider`/`GooglePayProvider` (`payment.py`; its
`PayPalProvider` has the same fields as the example one). -/
inductive Ctor
  | stripe
  | paypal
  | applepay
  | googlepay
deriving DecidableEq, Repr

/-- The dataclass fields each provider class declares, all required
(none of the dataclass fields has a default value in the source). -/
def ctorFields : Ctor → List String
  | .stripe => ["api_key"]
  | .paypal => ["client_id", "secret"]
  | .applepay => ["merchant_id"]
  | .googlepay => ["gateway", "merchant_id"]

/-- First element of `xs` that is not in `ys` (used for CPython's
keyword-argument binding errors). -/
def firstAbsent : List String → List String → Option String
  | [], _ => none
  | x :: rest, ys => if x ∈ ys then firstAbsent rest ys else some x

/-- The exceptions the two modules can raise.
`duplicate` is `ValueError("Provider ... already registered")`;
`unknownProvider` is `ValueError("Unknown provider ... Known providers: [...]")`
and carries the list of registered names the message interpolates;
`unknownNoList` is `get_default_config`'s `ValueError("Unknown provider ...")`,
which carries no such list; `keyError` is the `KeyError` raised by
`cls._registry[name]` in `payment.py`, whose payload is only the missing key;
`unexpectedKwarg`/`missingArg` are the `TypeError`s CPython raises when a
dataclass is called with an unknown keyword or without a required field
(the latter is the spec's `MissingConfigError`). -/
inductive PyError
  | duplicate (name : String)
  | unknownProvider (name : String) (known : List String)
  | unknownNoList (name : String)
  | keyError (name : String)
  | unexpectedKwarg (k : String)
  | missingArg (k : String)
deriving DecidableEq, Repr

/-- A constructed provider instance: its class and the attribute record the
dataclass `__init__` stored (one attribute per field, from the kwargs). -/
structure ProviderInstance where
  tag : Ctor
  config : Dict
deriving DecidableEq, Repr

/-- CPython keyword binding for `cls(**cfg)`: an unexpected keyword argument
is reported first, then a missing required field; otherwise binding
succeeds. -/
def ctorCheck (c : Ctor) (cfg : Dict) : Except PyError Unit :=
  match firstAbsent (akeys cfg) (ctorFields c) with
  | some k => .error (.unexpectedKwarg k)
  | none =>
    match firstAbsent (ctorFields c) (akeys cfg) with
    | some f => .error (.missingArg f)
    | none => .ok ()

/-- Dataclass instantiation `provider_cls(**cfg)`. -/
def applyCtor (c : Ctor) (cfg : Dict) : Except PyError ProviderInstance :=
  match ctorCheck c cfg with
  | .error e => .error e
  | .ok _ => .ok ⟨c, cfg⟩

/-- The shared charge-outcome record (`ChargeResult` in both modules).
Amounts are modelled as rationals; `charge` only echoes them, so no
floating-point arithmetic is involved. -/
structure ChargeResult where
  provider : String
  transaction_id : String
  amount : Rat
  currency : String
deriving DecidableEq, Repr

/-- The `charge` methods of the concrete providers: each prints and returns
a `ChargeResult` with a hardcoded provider name and transaction id, echoing
`amount` and `currency`.  `source` is only printed. -/
def charge (p : ProviderInstance) (amount : Rat) (currency source : String) :
    ChargeResult :=
  match p.tag with
  | .stripe => ⟨"stripe", "stripe_tx_123", amount, currency⟩
  | .paypal => ⟨"paypal", "paypal_tx_456", amount, currency⟩
  | .applepay => ⟨"applepay", "applepay_tx_123", amount, currency⟩
  | .googlepay => ⟨"googlepay", "googlepay_tx_789", amount, currency⟩

/-- The state of a `ProviderRegistry` (`payment_example.py`): its
`_providers` dict mapping name to `(provider_cls, default_config)`.
The same shape serves for `PaymentProvider._registry` in `payment.py`,
whose entries `ProviderInput(cls, config)` are the same pairs. -/
abbrev Registry := List (String × Ctor × Dict)

/-- `ProviderRegistry.register`, as a state transformer: raises
`ValueError` (leaving `_providers` untouched) when the name is present,
otherwise stores `(provider_cls, default_config or \x7b\x7d)`. -/
def registerM (r : Registry) (name : String) (c : Ctor) (d : Option Dict) :
    Except PyError Unit × Registry :=
  if name ∈ akeys r then (.error (.duplicate name), r)
  else (.ok (), aset r name (c, d.getD []))

/-- `ProviderRegistry.create` (also `PaymentProvider.from_name` of
`payment_example.py`, which delegates to it), as a state transformer:
raises `ValueError` listing the known provider names when the name is
absent, otherwise instantiates the class on `\x7b**default_config, **kwargs\x7d`.
The method body never writes `self._providers`, so the registry component
is returned unchanged on every path. -/
def createM (r : Registry) (name : String) (kwargs : Dict) :
    Except PyError ProviderInstance × Registry :=
  match aget r name with
  | none => (.error (.unknownProvider name (akeys r)), r)
  | some (c, d) => (applyCtor c (dictMerge d kwargs), r)

/-- `PaymentProvider.from_name` of `payment.py`: `cls._registry[name]`
raises a bare `KeyError` on a missing name, then the entry's class is
called on `\x7b**entry.config, **kwargs\x7d`. -/
def from_name (r : Registry) (name : String) (kwargs : Dict) :
    Except PyError ProviderInstance :=
  match aget r name with
  | none => .error (.keyError name)
  | some (c, d) => applyCtor c (dictMerge d kwargs)

/-- `PaymentProvider.__init_subclass__` of `payment.py`: when a `name` is
given it writes `cls._registry[name] = ProviderInput(cls, default_config or \x7b\x7d)`
directly — overwriting any existing entry — and otherwise leaves the
registry alone. -/
def initSubclass (r : Registry) (c : Ctor) (name : Option String)
    (d : Option Dict) : Registry :=
  match name with
  | none => r
  | some n => aset r n (c, d.getD [])

/-- `PaymentProvider.__init_subclass__` of `payment_example.py`: when a
`name` is given it delegates to `provider_registry.register` (which can
raise on a duplicate), and otherwise does nothing. -/
def initSubclassEx (r : Registry) (c : Ctor) (name : Option String)
    (d : Option Dict) : Except PyError Registry :=
  match name with
  | none => .ok r
  | some n =>
    match registerM r n c d with
    | (.error e, _) => .error e
    | (.ok _, r2) => .ok r2

/-- `ProviderRegistry.list_providers` (and `PaymentProvider.list_available`
in both modules): `list(self._providers.keys())`, i.e. the names in
insertion order. -/
def list_providers (r : Registry) : List String :=
  akeys r

/-- Running a sequence of registrations through `ProviderRegistry.register`,
stopping at the first raised exception. -/
def registerAll (r : Registry) : List (String × Ctor × Option Dict) →
    Except PyError Registry
  | [] => .ok r
  | (n, c, d) :: rest =>
    match registerM r n c d with
    | (.error e, _) => .error e
    | (.ok _, r2) => registerAll r2 rest

/-- A reference to a Python dictionary object (a store index). -/
abbrev DictRef := Nat

/-- A store of dictionary objects, for the aliasing-sensitive claims. -/
abbrev DictStore := List Dict

/-- Allocate a fresh dictionary object. -/
def alloc (s : DictStore) (d : Dict) : DictRef × DictStore :=
  (s.length, s ++ [d])

/-- Read a dictionary object. -/
def readRef (s : DictStore) (r : DictRef) : Dict :=
  (s.get? r).getD []

/-- Overwrite a dictionary object in place (a caller mutating a dict it
holds a reference to). -/
def writeRef (s : DictStore) (r : DictRef) (d : Dict) : DictStore :=
  s.set r d

/-- Registry state with defaults held by reference, as the Python objects
are: `_providers` maps a name to the class and the default-config object. -/
abbrev RegistryH := List (String × Ctor × DictRef)

/-- A constructed instance in the store model: its class and a reference to
its own freshly-built attribute record. -/
structure ProviderInstanceH where
  tag : Ctor
  cfgRef : DictRef
deriving DecidableEq, Repr

/-- Dataclass instantiation in the store model: keyword binding as in
`applyCtor`, then the instance's attribute record is a fresh object. -/
def applyCtorH (c : Ctor) (cfg : Dict) (s : DictStore) :
    Except PyError (ProviderInstanceH × DictStore) :=
  match ctorCheck c cfg with
  | .error e => .error e
  | .ok _ =>
    match alloc s cfg with
    | (r, s2) => .ok (⟨c, r⟩, s2)

/-- `ProviderRegistry.create` in the store model: reads the stored default
object, builds the fresh merged dict `\x7b**default_config, **kwargs\x7d`, and
instantiates.  The stored default object is never written. -/
def createH (reg : RegistryH) (s : DictStore) (name : String)
    (kwargs : Dict) : Except PyError (ProviderInstanceH × DictStore) :=
  match aget reg name with
  | none => .error (.unknownProvider name (akeys reg))
  | some (c, rd) => applyCtorH c (dictMerge (readRef s rd) kwargs) s

/-- `ProviderRegistry.get_default_config` in the store model: raises on an
unknown name, otherwise returns `self._providers[name][1].copy()` — a fresh
object holding the same pairs. -/
def getDefaultConfigH (reg : RegistryH) (s : DictStore) (name : String) :
    Except PyError (DictRef × DictStore) :=
  match aget reg name with
  | none => .error (.unknownNoList name)
  | some (_, rd) => .ok (alloc s (readRef s rd))

/-! ## Dictionary lemmas -/

theorem aget_aset {α : Type} (d : List (String × α)) (k k2 : String) (v : α) :
    aget (aset d k v) k2 = if k = k2 then some v else aget d k2 := by
  induction d with
  | nil => simp [aset, aget]
  | cons hd tl ih =>
    obtain ⟨k0, v0⟩ := hd
    by_cases h0 : k0 = k
    · subst h0
      by_cases h2 : k0 = k2 <;> simp [aset, aget, h2]
    · by_cases h2 : k0 = k2
      · subst h2
        have : k ≠ k0 := fun h => h0 h.symm
        simp [aset, aget, h0, this]
      · simp [aset, aget, h0, h2, ih]

theorem akeys_nil {α : Type} : akeys ([] : List (String × α)) = [] := rfl

theorem akeys_cons {α : Type} (k : String) (v : α) (tl : List (String × α)) :
    akeys ((k, v) :: tl) = k :: akeys tl := rfl

theorem mem_akeys_iff_aget {α : Type} (d : List (String × α)) (k : String) :
    k ∈ akeys d ↔ (aget d k).isSome := by
  induction d with
  | nil => simp [akeys, aget]
  | cons hd tl ih =>
    obtain ⟨k0, v0⟩ := hd
    rw [akeys_cons, List.mem_cons]
    by_cases h : k0 = k
    · subst h
      simp [aget]
    · have h2 : ¬ k = k0 := fun hh => h hh.symm
      simp [aget, h, h2, ih]

theorem aget_mem {α : Type} (d : List (String × α)) (k : String) (v : α)
    (h : aget d k = some v) : (k, v) ∈ d := by
  induction d with
  | nil => simp [aget] at h
  | cons hd tl ih =>
    obtain ⟨k0, v0⟩ := hd
    by_cases h0 : k0 = k
    · subst h0
      simp [aget] at h
      subst h
      exact List.mem_cons_self _ _
    · simp [aget, h0] at h
      exact List.mem_cons_of_mem _ (ih h)

theorem aset_of_not_mem {α : Type} (d : List (String × α)) (k : String)
    (v : α) (h : k ∉ akeys d) : aset d k v = d ++ [(k, v)] := by
  induction d with
  | nil => simp [aset]
  | cons hd tl ih =>
    obtain ⟨k0, v0⟩ := hd
    rw [akeys_cons, List.mem_cons] at h
    push_neg at h
    have h0 : ¬ k0 = k := fun hh => h.1 hh.symm
    simp [aset, h0, ih h.2]

theorem dictMerge_nil (a : Dict) : dictMerge a [] = a := rfl

theorem dictMerge_cons (a : Dict) (k : String) (v : ConfigValue) (b : Dict) :
    dictMerge a ((k, v) :: b) = dictMerge (aset a k v) b := rfl

/-- The merge-precedence law for `\x7b**a, **b\x7d`: a key of `b` gets the
value from `b`, any other key keeps the value from `a`. -/
theorem aget_dictMerge (b a : Dict) (k : String)
    (hb : (akeys b).Nodup) :
    aget (dictMerge a b) k =
      if k ∈ akeys b then aget b k else aget a k := by
  induction b generalizing a with
  | nil => simp [dictMerge, akeys, aget]
  | cons hd tl ih =>
    obtain ⟨k0, v0⟩ := hd
    rw [akeys_cons, List.nodup_cons] at hb
    obtain ⟨hk0, htl⟩ := hb
    rw [dictMerge_cons, ih _ htl, akeys_cons]
    by_cases hmem : k ∈ akeys tl
    · have hne : ¬ k0 = k := fun h => hk0 (h ▸ hmem)
      simp [aget, hmem, hne, List.mem_cons]
    · rw [aget_aset]
      by_cases he : k0 = k
      · subst he
        simp [aget, hmem, List.mem_cons]
      · have he2 : ¬ k = k0 := fun h => he h.symm
        simp [aget, hmem, he, he2, List.mem_cons]

/-! ## Store lemmas -/

theorem readRef_append_lt (s t : DictStore) (r : DictRef)
    (h : r < s.length) : readRef (s ++ t) r = readRef s r := by
  unfold readRef
  rw [List.get?_append h]

theorem readRef_append_self (s : DictStore) (d : Dict) :
    readRef (s ++ [d]) s.length = d := by
  unfold readRef
  rw [List.get?_concat_length]
  rfl

theorem readRef_set_ne (s : DictStore) (r r2 : DictRef) (d : Dict)
    (h : r ≠ r2) : readRef (writeRef s r d) r2 = readRef s r2 := by
  unfold readRef writeRef
  rw [List.get?_set_ne _ _ h]

theorem length_writeRef (s : DictStore) (r : DictRef) (d : Dict) :
    (writeRef s r d).length = s.length := by
  simp [writeRef]

/-! ## Characterisation lemmas for the modelled methods -/

theorem firstAbsent_eq_none (xs ys : List String)
    (h : ∀ x ∈ xs, x ∈ ys) : firstAbsent xs ys = none := by
  induction xs with
  | nil => rfl
  | cons x rest ih =>
    have hx : x ∈ ys := h x (List.mem_cons_self _ _)
    simp [firstAbsent, hx]
    exact ih fun a ha => h a (List.mem_cons_of_mem _ ha)

theorem firstAbsent_none_forall (xs ys : List String)
    (h : firstAbsent xs ys = none) : ∀ x ∈ xs, x ∈ ys := by
  induction xs with
  | nil => intro x hx; simp at hx
  | cons x rest ih =>
    by_cases hx : x ∈ ys
    · simp [firstAbsent, hx] at h
      intro a ha
      rcases List.mem_cons.mp ha with h1 | h1
      · exact h1 ▸ hx
      · exact ih h a h1
    · simp [firstAbsent, hx] at h

theorem applyCtor_ok (c : Ctor) (cfg : Dict) (i : ProviderInstance)
    (h : applyCtor c cfg = .ok i) : i = ⟨c, cfg⟩ := by
  unfold applyCtor at h
  cases hc : ctorCheck c cfg with
  | error e => rw [hc] at h; exact absurd h (by simp)
  | ok u => rw [hc] at h; exact (Except.ok.injEq _ _ ▸ h).symm ▸ rfl

theorem createM_ok (r : Registry) (name : String) (c : Ctor) (D O : Dict)
    (i : ProviderInstance) (hn : aget r name = some (c, D))
    (h : (createM r name O).1 = .ok i) : i = ⟨c, dictMerge D O⟩ := by
  unfold createM at h
  rw [hn] at h
  exact applyCtor_ok _ _ _ h

theorem createH_ok (reg : RegistryH) (s : DictStore) (name : String)
    (c : Ctor) (rd : DictRef) (O : Dict) (i : ProviderInstanceH)
    (s2 : DictStore) (hn : aget reg name = some (c, rd))
    (h : createH reg s name O = .ok (i, s2)) :
    i.tag = c ∧ i.cfgRef = s.length ∧
      s2 = s ++ [dictMerge (readRef s rd) O] := by
  cases hc : ctorCheck c (dictMerge (readRef s rd) O) with
  | error e => simp [createH, hn, applyCtorH, hc] at h
  | ok u =>
    simp [createH, hn, applyCtorH, hc, alloc] at h
    obtain ⟨hi, hs⟩ := h
    exact ⟨by rw [← hi], by rw [← hi], hs.symm⟩

theorem akeys_append {α : Type} (a b : List (String × α)) :
    akeys (a ++ b) = akeys a ++ akeys b := by
  simp [akeys]

theorem registerM_ok (r : Registry) (name : String) (c : Ctor)
    (d : Option Dict) (u : Unit) (r2 : Registry)
    (h : registerM r name c d = (.ok u, r2)) :
    name ∉ akeys r ∧ r2 = r ++ [(name, c, d.getD [])] := by
  unfold registerM at h
  by_cases hm : name ∈ akeys r
  · simp [hm] at h
  · simp [hm] at h
    exact ⟨hm, by rw [← h]; exact aset_of_not_mem r name (c, d.getD []) hm⟩

theorem registerAll_ok (items : List (String × Ctor × Option Dict)) :
    ∀ r r2 : Registry, (akeys r).Nodup → registerAll r items = .ok r2 →
      akeys r2 = akeys r ++ items.map (fun e => e.1) ∧ (akeys r2).Nodup := by
  induction items with
  | nil =>
    intro r r2 hnd h
    simp [registerAll] at h
    subst h
    simp [hnd]
  | cons hd rest ih =>
    obtain ⟨n, c, d⟩ := hd
    intro r r2 hnd h
    unfold registerAll at h
    cases hreg : registerM r n c d with
    | mk res r1 =>
      cases res with
      | error e => rw [hreg] at h; simp at h
      | ok u =>
        rw [hreg] at h
        simp at h
        obtain ⟨hm, hr1⟩ := registerM_ok r n c d u r1 hreg
        subst hr1
        have hk : akeys (r ++ [(n, c, d.getD [])]) = akeys r ++ [n] := by
          rw [akeys_append]; rfl
        have hnd1 : (akeys (r ++ [(n, c, d.getD [])])).Nodup := by
          rw [hk, List.nodup_append]
          refine ⟨hnd, List.nodup_singleton n, ?_⟩
          intro a ha hb
          simp at hb
          subst hb
          exact hm ha
        obtain ⟨h1, h2⟩ := ih _ _ hnd1 h
        refine ⟨?_, h2⟩
        rw [h1, hk]
        simp

/-! ## Concrete fixtures used by witnesses -/

/-- A registry holding the two providers of `payment_example.py` with their
declared defaults, as the module-import registration leaves it. -/
def exampleRegistry : Registry :=
  [("stripe", (Ctor.stripe, [("api_key", ConfigValue.str "sk_test_123")])),
   ("paypal", (Ctor.paypal,
     [("client_id", ConfigValue.str "my-app"),
      ("secret", ConfigValue.str "super-secret")]))]

/-- The default configuration of `PayPalProvider`. -/
def paypalDefaults : Dict :=
  [("client_id", ConfigValue.str "my-app"),
   ("secret", ConfigValue.str "super-secret")]

/-- A partial override for PayPal, as in the source demo `main`. -/
def paypalOverride : Dict :=
  [("secret", ConfigValue.str "production-secret")]

/-- The stored Stripe default-config object of the store model. -/
def stripeDefaultsObj : Dict :=
  [("api_key", ConfigValue.str "sk_test_123")]

/-- A store-model registry: `stripe` with its defaults at reference 0. -/
def exampleRegistryH : RegistryH :=
  [("stripe", (Ctor.stripe, 0))]

/-! ## Claim theorems -/

/-- Claim C1 (code_bug evaluation).  Registering a second provider class
under the already-taken name `applepay` through
`PaymentProvider.__init_subclass__` of `payment.py` silently replaces the
first entry instead of failing with a duplicate-name error: the resulting
registry holds the second class and its configuration.  (The second
conjunct records that `ProviderRegistry.register` of `payment_example.py`
does implement the claimed behaviour: it raises and keeps the first
entry.) -/
theorem init_subclass_duplicate_overwrites :
    initSubclass
        (initSubclass [] .applepay (some "applepay")
          (some [("merchant_id", ConfigValue.str "merchant.com.example")]))
        .paypal (some "applepay")
        (some [("merchant_id", ConfigValue.str "other")]) =
      [("applepay", (.paypal, [("merchant_id", ConfigValue.str "other")]))] ∧
    registerM
        (initSubclass [] .applepay (some "applepay")
          (some [("merchant_id", ConfigValue.str "merchant.com.example")]))
        "applepay" .paypal (some [("merchant_id", ConfigValue.str "other")]) =
      (.error (.duplicate "applepay"),
        initSubclass [] .applepay (some "applepay")
          (some [("merchant_id", ConfigValue.str "merchant.com.example")])) := by
  exact ⟨rfl, rfl⟩

/-- Claim C2.  For a registered name with defaults `D` and an override
dict `O`, a successful `create` (hence `from_name`) builds the instance
from exactly the merged configuration: each key of `O` carries the value
from `O`, and every other key keeps its default from `D`. -/
theorem create_merge_precedence (r : Registry) (name : String) (c : Ctor)
    (D O : Dict) (i : ProviderInstance) (k : String)
    (hn : aget r name = some (c, D)) (hO : (akeys O).Nodup)
    (h : (createM r name O).1 = .ok i) :
    i.config = dictMerge D O ∧
      aget i.config k = if k ∈ akeys O then aget O k else aget D k := by
  have hi := createM_ok r name c D O i hn h
  subst hi
  exact ⟨rfl, aget_dictMerge O D k hO⟩

/-- Witness for C2: PayPal with its source defaults and the demo override
of `secret`; the override wins on `secret` while `client_id` keeps its
default. -/
theorem create_merge_precedence_w :
    (⟨Ctor.paypal, dictMerge paypalDefaults paypalOverride⟩ :
        ProviderInstance).config = dictMerge paypalDefaults paypalOverride ∧
      aget (⟨Ctor.paypal, dictMerge paypalDefaults paypalOverride⟩ :
          ProviderInstance).config "client_id" =
        if "client_id" ∈ akeys paypalOverride then
          aget paypalOverride "client_id"
        else aget paypalDefaults "client_id" :=
  create_merge_precedence exampleRegistry "paypal" Ctor.paypal
    paypalDefaults paypalOverride
    ⟨Ctor.paypal, dictMerge paypalDefaults paypalOverride⟩ "client_id"
    (by rfl) (by decide) (by rfl)

/-- Claim C3 (counterexample).  `PaymentProvider.from_name` of
`payment.py` fails on an unknown name with a bare `KeyError` whose payload
is only the missing key — not an error listing the currently registered
names, as the claim requires of every `fromName` path. -/
theorem from_name_unknown_counterexample :
    from_name
        [("applepay", (Ctor.applepay,
          [("merchant_id", ConfigValue.str "merchant.com.example")]))]
        "doesnotexist" [] = .error (.keyError "doesnotexist") ∧
    PyError.keyError "doesnotexist" ≠
      PyError.unknownProvider "doesnotexist" ["applepay"] := by
  exact ⟨rfl, by decide⟩

/-- Claim C3 (amended).  `ProviderRegistry.create` — and with it
`PaymentProvider.from_name` of `payment_example.py`, which delegates to
it — fails on an unknown name with the `ValueError` carrying exactly the
currently registered names, and returns the registry state unchanged. -/
theorem create_unknown_lists_names (r : Registry) (name : String) (O : Dict)
    (h : aget r name = none) :
    createM r name O = (.error (.unknownProvider name (akeys r)), r) := by
  unfold createM
  rw [h]

/-- Witness for the amended C3: an unknown name against the example
registry yields the error listing exactly `stripe` and `paypal`. -/
theorem create_unknown_lists_names_w :
    createM exampleRegistry "doesnotexist" [] =
      (.error (.unknownProvider "doesnotexist" ["stripe", "paypal"]),
        exampleRegistry) :=
  create_unknown_lists_names exampleRegistry "doesnotexist" [] (by rfl)

/-- Claim C4.  For a registered variant whose merged configuration stays
within its declared fields, `create` fails with the missing-required-field
`TypeError` (the `MissingConfigError` of the spec) precisely when some
required field is absent from the merged configuration — reporting the
first such field — and succeeds otherwise. -/
theorem create_missing_config (r : Registry) (name : String) (c : Ctor)
    (D O : Dict) (hn : aget r name = some (c, D))
    (hsub : ∀ k ∈ akeys (dictMerge D O), k ∈ ctorFields c) :
    (createM r name O).1 =
      match firstAbsent (ctorFields c) (akeys (dictMerge D O)) with
      | some f => .error (.missingArg f)
      | none => .ok ⟨c, dictMerge D O⟩ := by
  cases hf : firstAbsent (ctorFields c) (akeys (dictMerge D O)) with
  | some f =>
    simp [createM, hn, applyCtor, ctorCheck,
      firstAbsent_eq_none _ _ hsub, hf]
  | none =>
    simp [createM, hn, applyCtor, ctorCheck,
      firstAbsent_eq_none _ _ hsub, hf]

/-- Witness for C4: a variant requiring `api_key`, registered with no
default for it, fails via `fromName(name, \x7b\x7d)` with the missing-field
error and succeeds via `fromName(name, \x7bapi_key:"x"\x7d)`. -/
theorem create_missing_config_w :
    (createM [("stripe", (Ctor.stripe, ([] : Dict)))] "stripe" []).1 =
      .error (.missingArg "api_key") ∧
    (createM [("stripe", (Ctor.stripe, ([] : Dict)))] "stripe"
        [("api_key", ConfigValue.str "x")]).1 =
      .ok ⟨Ctor.stripe, [("api_key", ConfigValue.str "x")]⟩ := by
  constructor
  · have h := create_missing_config [("stripe", (Ctor.stripe, []))]
      "stripe" Ctor.stripe [] [] (by rfl) (by decide)
    rw [h]
    rfl
  · have h := create_missing_config [("stripe", (Ctor.stripe, []))]
      "stripe" Ctor.stripe [] [("api_key", ConfigValue.str "x")]
      (by rfl) (by decide)
    rw [h]
    rfl

/-- Claim C5.  After any successful sequence of `register` calls starting
from the empty registry, `list_providers` (and `list_available`, which
delegates to it) returns every registered name exactly once, in insertion
order. -/
theorem list_available_roundtrip (items : List (String × Ctor × Option Dict))
    (r : Registry) (h : registerAll [] items = .ok r) :
    list_providers r = items.map (fun e => e.1) ∧
      (list_providers r).Nodup := by
  have hres := registerAll_ok items [] r (by simp [akeys]) h
  simpa [list_providers, akeys] using hres

/-- The registration sequence `stripe`, `paypal`, `square` of the
round-trip testable property. -/
def roundtripItems : List (String × Ctor × Option Dict) :=
  [("stripe", (Ctor.stripe, some [("api_key", ConfigValue.str "sk_test_123")])),
   ("paypal", (Ctor.paypal, some [("client_id", ConfigValue.str "my-app")])),
   ("square", (Ctor.stripe, none))]

/-- The registry those three registrations produce. -/
def roundtripRegistry : Registry :=
  [("stripe", (Ctor.stripe, [("api_key", ConfigValue.str "sk_test_123")])),
   ("paypal", (Ctor.paypal, [("client_id", ConfigValue.str "my-app")])),
   ("square", (Ctor.stripe, []))]

/-- Witness for C5: registering `stripe`, `paypal`, `square` in that order
lists exactly those names, in that order, without duplicates. -/
theorem list_available_roundtrip_w :
    list_providers roundtripRegistry = ["stripe", "paypal", "square"] ∧
      (list_providers roundtripRegistry).Nodup :=
  list_available_roundtrip roundtripItems roundtripRegistry (by rfl)

/-- Claim C6.  A registered default configuration is never modified by the
registry operations: a `create` call leaves the stored default object
untouched; `get_default_config` returns a freshly-allocated copy of it;
and after a caller overwrites that returned copy, a later `create` still
builds its instance from the original defaults. -/
theorem default_config_immutable (reg : RegistryH) (s : DictStore)
    (name : String) (c : Ctor) (rd : DictRef) (O : Dict) (d2 : Dict)
    (i : ProviderInstanceH) (s2 : DictStore) (i3 : ProviderInstanceH)
    (s3 : DictStore)
    (hv : ∀ e ∈ reg, e.2.2 < s.length)
    (hn : aget reg name = some (c, rd))
    (h1 : createH reg s name O = .ok (i, s2))
    (h2 : createH reg (writeRef (s ++ [readRef s rd]) s.length d2) name O =
      .ok (i3, s3)) :
    readRef s2 rd = readRef s rd ∧
    getDefaultConfigH reg s name = .ok (s.length, s ++ [readRef s rd]) ∧
    readRef s3 i3.cfgRef = dictMerge (readRef s rd) O := by
  have hrd : rd < s.length := hv _ (aget_mem reg name (c, rd) hn)
  obtain ⟨_, hcf, hs2⟩ := createH_ok reg s name c rd O i s2 hn h1
  have hread : readRef (writeRef (s ++ [readRef s rd]) s.length d2) rd =
      readRef s rd := by
    rw [readRef_set_ne _ _ _ _ (Nat.ne_of_gt hrd),
      readRef_append_lt _ _ _ hrd]
  obtain ⟨_, hcf3, hs3⟩ := createH_ok reg _ name c rd O i3 s3 hn h2
  refine ⟨?_, ?_, ?_⟩
  · rw [hs2]
    exact readRef_append_lt _ _ _ hrd
  · simp [getDefaultConfigH, hn, alloc]
  · rw [hs3, hcf3, readRef_append_self, hread]

/-- Witness for C6: the Stripe defaults object at reference 0, corrupted
through the copy returned by `get_default_config`, is still what a later
`create` merges from. -/
theorem default_config_immutable_w :
    readRef [stripeDefaultsObj, stripeDefaultsObj] 0 =
      readRef [stripeDefaultsObj] 0 ∧
    getDefaultConfigH exampleRegistryH [stripeDefaultsObj] "stripe" =
      .ok (1, [stripeDefaultsObj, stripeDefaultsObj]) ∧
    readRef [stripeDefaultsObj, [("api_key", ConfigValue.str "corrupted")],
        stripeDefaultsObj] 2 =
      dictMerge (readRef [stripeDefaultsObj] 0) [] :=
  default_config_immutable exampleRegistryH [stripeDefaultsObj] "stripe"
    Ctor.stripe 0 [] [("api_key", ConfigValue.str "corrupted")]
    ⟨Ctor.stripe, 1⟩ [stripeDefaultsObj, stripeDefaultsObj]
    ⟨Ctor.stripe, 2⟩
    [stripeDefaultsObj, [("api_key", ConfigValue.str "corrupted")],
      stripeDefaultsObj]
    (by decide) (by rfl) (by rfl) (by rfl)

/-- Claim C7.  End-to-end scenario: with `stripe` registered with defaults
`api_key = sk_test_123`, `from_name` with no overrides constructs a Stripe
instance whose `charge(49.99, "USD", "4242 4242 4242 4242")` returns a
result carrying provider `stripe`, the exact amount and currency, and a
non-empty transaction id. -/
theorem end_to_end_stripe :
    ∃ i : ProviderInstance,
      (createM (registerM [] "stripe" Ctor.stripe
          (some [("api_key", ConfigValue.str "sk_test_123")])).2
        "stripe" []).1 = .ok i ∧
      charge i (49.99 : Rat) "USD" "4242 4242 4242 4242" =
        ⟨"stripe", "stripe_tx_123", (49.99 : Rat), "USD"⟩ ∧
      "stripe_tx_123" ≠ "" := by
  exact ⟨⟨Ctor.stripe, [("api_key", ConfigValue.str "sk_test_123")]⟩,
    rfl, rfl, by decide⟩

/-- Claim C8 (counterexample).  Two distinct charge calls on the same
Stripe instance — the amounts differ — return the same hardcoded
transaction id `stripe_tx_123`, so charge results do not uniquely identify
transactions. -/
theorem charge_tx_not_unique :
    (charge ⟨Ctor.stripe, [("api_key", ConfigValue.str "sk_test_123")]⟩
        (49.99 : Rat) "USD" "card_abc").amount ≠
      (charge ⟨Ctor.stripe, [("api_key", ConfigValue.str "sk_test_123")]⟩
        (10 : Rat) "EUR" "card_xyz").amount ∧
    (charge ⟨Ctor.stripe, [("api_key", ConfigValue.str "sk_test_123")]⟩
        (49.99 : Rat) "USD" "card_abc").transaction_id =
      (charge ⟨Ctor.stripe, [("api_key", ConfigValue.str "sk_test_123")]⟩
        (10 : Rat) "EUR" "card_xyz").transaction_id := by
  refine ⟨?_, rfl⟩
  show (49.99 : Rat) ≠ 10
  norm_num

/-- Claim C8 (amended).  Each provider class returns a fixed,
provider-specific transaction id: any two charge calls on the same
instance yield equal transaction ids. -/
theorem charge_tx_constant (p : ProviderInstance) (a1 a2 : Rat)
    (c1 c2 s1 s2 : String) :
    (charge p a1 c1 s1).transaction_id =
      (charge p a2 c2 s2).transaction_id := by
  cases h : p.tag <;> simp [charge, h]

/-- Claim C9.  Two instances created for the same name with different
overrides own disjoint configuration objects: their references differ, and
overwriting either one leaves the other unchanged. -/
theorem instances_independent (reg : RegistryH) (s : DictStore)
    (name : String) (c : Ctor) (rd : DictRef) (O1 O2 : Dict) (d2 : Dict)
    (i1 i2 : ProviderInstanceH) (s1 s2 : DictStore)
    (hn : aget reg name = some (c, rd))
    (h1 : createH reg s name O1 = .ok (i1, s1))
    (h2 : createH reg s1 name O2 = .ok (i2, s2)) :
    i1.cfgRef ≠ i2.cfgRef ∧
    readRef (writeRef s2 i1.cfgRef d2) i2.cfgRef = readRef s2 i2.cfgRef ∧
    readRef (writeRef s2 i2.cfgRef d2) i1.cfgRef = readRef s2 i1.cfgRef := by
  obtain ⟨_, hc1, hs1⟩ := createH_ok reg s name c rd O1 i1 s1 hn h1
  obtain ⟨_, hc2, hs2⟩ := createH_ok reg s1 name c rd O2 i2 s2 hn h2
  have hlen : s1.length = s.length + 1 := by rw [hs1]; simp
  have hne : i1.cfgRef ≠ i2.cfgRef := by
    rw [hc1, hc2, hlen]
    exact Nat.ne_of_lt (Nat.lt_succ_self _)
  exact ⟨hne, readRef_set_ne _ _ _ _ hne,
    readRef_set_ne _ _ _ _ (Ne.symm hne)⟩

/-- Witness for C9: constructing `stripe` twice, first with no overrides
and then overriding `api_key`, yields instances at distinct references
1 and 2; overwriting either dict leaves the other unchanged. -/
theorem instances_independent_w :
    (1 : DictRef) ≠ 2 ∧
    readRef (writeRef [stripeDefaultsObj, stripeDefaultsObj,
        [("api_key", ConfigValue.str "sk_live_real_key")]] 1
        [("api_key", ConfigValue.str "mutated")]) 2 =
      readRef [stripeDefaultsObj, stripeDefaultsObj,
        [("api_key", ConfigValue.str "sk_live_real_key")]] 2 ∧
    readRef (writeRef [stripeDefaultsObj, stripeDefaultsObj,
        [("api_key", ConfigValue.str "sk_live_real_key")]] 2
        [("api_key", ConfigValue.str "mutated")]) 1 =
      readRef [stripeDefaultsObj, stripeDefaultsObj,
        [("api_key", ConfigValue.str "sk_live_real_key")]] 1 :=
  instances_independent exampleRegistryH [stripeDefaultsObj] "stripe"
    Ctor.stripe 0 [] [("api_key", ConfigValue.str "sk_live_real_key")]
    [("api_key", ConfigValue.str "mutated")]
    ⟨Ctor.stripe, 1⟩ ⟨Ctor.stripe, 2⟩
    [stripeDefaultsObj, stripeDefaultsObj]
    [stripeDefaultsObj, stripeDefaultsObj,
      [("api_key", ConfigValue.str "sk_live_real_key")]]
    (by rfl) (by rfl) (by rfl)

/-- Claim C10.  Defining a provider subclass without a registration name
leaves the registry of either module completely unchanged: no entry is
added and the listed names before and after are equal. -/
theorem subclass_opt_out (r : Registry) (c : Ctor) (d : Option Dict) :
    initSubclass r c none d = r ∧
    list_providers (initSubclass r c none d) = list_providers r ∧
    initSubclassEx r c none d = .ok r := by
  exact ⟨rfl, rfl, rfl⟩
